import Mathlib

/-!
Verification of the psychrometric-chart generator
(`src/psychrometric_chart.py`) against its specification.

The program is embedded shallowly over `ℚ` (exact arithmetic standing in
for the Python floats; Lean's total division `x / 0 = 0` stands in for the
float division).  The saturation-vapor-pressure correlation
`psychrolib.GetSatVapPres` is an external collaborator (a third-party
library, not part of this repository), so it is modelled as an abstract
function parameter `GetSatVapPres : ℚ → ℚ`; physical facts about it
(positivity, monotonicity on the chart domain) appear as explicit
hypotheses where a claim needs them.
-/

namespace Psychrometric

/-- `calc_humidity_ratio` from `src/psychrometric_chart.py`:
`P_ws = GetSatVapPres(T_db)`, `P_w = RH * P_ws`,
`W = 0.621945 * P_w / (P - P_w)`. -/
def calc_humidity_ratio (GetSatVapPres : ℚ → ℚ) (T_db RH P : ℚ) : ℚ :=
  let P_ws := GetSatVapPres T_db
  let P_w := RH * P_ws
  let W := 0.621945 * P_w / (P - P_w)
  W

/-- `numpy.linspace lo hi n`: `n` evenly spaced samples including both
endpoints. -/
def linspace (lo hi : ℚ) (n : ℕ) : List ℚ :=
  (List.range n).map (fun (i : ℕ) => lo + (hi - lo) * (i : ℚ) / ((n : ℚ) - 1))

/-- One plotly `Scatter` trace reduced to its data content: the `x` array,
the `y` array and the trace name (style options carry no data). -/
structure Series where
  xs : List ℚ
  ys : List ℚ
  name : String
deriving DecidableEq, Repr

/-- The uploaded pandas dataframe reduced to what the program reads from
it: the column-name list and a column accessor (`df[c].values`). -/
structure Table where
  columns : List String
  col : String → List ℚ

/-- The generated plotly figure reduced to its data content: the trace
list, and the coordinates of the four RH text labels placed via layout
`annotations` (x = 35, y = the label humidity ratio). -/
structure Figure where
  series : List Series
  labels : List (ℚ × ℚ)
deriving DecidableEq

/-- `pressure = 101325` Pa, fixed in `generate_psychrometric_chart`. -/
def pressure : ℚ := 101325

/-- `T_db = np.linspace(0, 50, 100)`. -/
def T_db : List ℚ := linspace 0 50 100

/-- `RH_levels = [0.2, 0.4, 0.6, 0.8]`. -/
def RH_levels : List ℚ := [0.2, 0.4, 0.6, 0.8]

/-- The iso-RH trace name built in the source by string formatting from
`int(rh*100)`. -/
def rh_name (rh : ℚ) : String := toString ⌊rh * 100⌋ ++ "% RH"

/-- The saturation-line trace: `W_sat` over `T_db` at `RH = 1.0`,
scaled to g/kg. -/
def saturation_series (satP : ℚ → ℚ) : Series :=
  ⟨T_db, T_db.map (fun t => calc_humidity_ratio satP t 1.0 pressure * 1000),
   "100% RH (Saturation)"⟩

/-- One constant-RH trace: `W_RH[rh]` over `T_db`, scaled to g/kg. -/
def rh_series (satP : ℚ → ℚ) (rh : ℚ) : Series :=
  ⟨T_db, T_db.map (fun t => calc_humidity_ratio satP t rh pressure * 1000),
   rh_name rh⟩

/-- The room-conditions trace: `x = df[Temperature].values`,
`y = W_room` where `RH_room = df[Humidity].values / 100` and
`W_room = [calc_humidity_ratio(t, rh, pressure) * 1000 for t, rh in zip(T_db_room, RH_room)]`. -/
def room_series (satP : ℚ → ℚ) (df : Table) : Series :=
  let T_db_room := df.col "Temperature"
  let RH_room := (df.col "Humidity").map (fun h => h / 100)
  ⟨T_db_room,
   (T_db_room.zip RH_room).map
     (fun p => calc_humidity_ratio satP p.1 p.2 pressure * 1000),
   "Room Conditions"⟩

/-- `T_comfort = np.array([14, 22])`. -/
def T_comfort : List ℚ := [14, 22]

/-- `W_comfort_low`: humidity ratios at the two comfort temperatures at
`RH_comfort_low = 0.4`, scaled to g/kg. -/
def W_comfort_low (satP : ℚ → ℚ) : List ℚ :=
  T_comfort.map (fun t => calc_humidity_ratio satP t 0.4 pressure * 1000)

/-- `W_comfort_high`: humidity ratios at the two comfort temperatures at
`RH_comfort_high = 0.6`, scaled to g/kg. -/
def W_comfort_high (satP : ℚ → ℚ) : List ℚ :=
  T_comfort.map (fun t => calc_humidity_ratio satP t 0.6 pressure * 1000)

/-- The design-zone trace added when `show_design_zone` is set:
`x = [14, 22, 22, 14, 14]`,
`y = [W_comfort_low[0], W_comfort_low[1], W_comfort_high[1], W_comfort_high[0], W_comfort_low[0]]`. -/
def design_zone_series (satP : ℚ → ℚ) : Series :=
  ⟨[14, 22, 22, 14, 14],
   [(W_comfort_low satP).getD 0 0, (W_comfort_low satP).getD 1 0,
    (W_comfort_high satP).getD 1 0, (W_comfort_high satP).getD 0 0,
    (W_comfort_low satP).getD 0 0],
   "Design Zone (14-22C, 40-60% RH)"⟩

/-- `W_labels[rh]`: the label y-coordinate at `T_label = 35`. -/
def W_labels (satP : ℚ → ℚ) (rh : ℚ) : ℚ :=
  calc_humidity_ratio satP 35 rh pressure * 1000

/-- The four RH label placements `(x = 35, y = W_labels[rh])`. -/
def chart_labels (satP : ℚ → ℚ) : List (ℚ × ℚ) :=
  RH_levels.map (fun rh => (35, W_labels satP rh))

/-- `generate_psychrometric_chart(df, show_design_zone)`: traces are
added in source order (saturation, the four constant-RH lines, room
conditions, then the design zone only when the flag is set), plus the
label placements. -/
def generate_psychrometric_chart (satP : ℚ → ℚ) (df : Table)
    (show_design_zone : Bool) : Figure :=
  ⟨[saturation_series satP] ++ RH_levels.map (rh_series satP)
      ++ [room_series satP df]
      ++ (if show_design_zone then [design_zone_series satP] else []),
   chart_labels satP⟩

/-- What `main` renders for one script run: a chart, a validation error
message, or the upload prompt. -/
inductive MainView where
  | chartView (fig : Figure) : MainView
  | errorView (msg : String) : MainView
  | infoView (msg : String) : MainView
deriving DecidableEq

/-- The decision logic of `main`: no file yields the info prompt; with a
file, the chart is generated only when both required columns exist,
otherwise the validation error is shown. -/
def main (satP : ℚ → ℚ) (uploaded : Option Table)
    (show_design_zone : Bool) : MainView :=
  match uploaded with
  | some df =>
      if "Temperature" ∈ df.columns ∧ "Humidity" ∈ df.columns then
        .chartView (generate_psychrometric_chart satP df show_design_zone)
      else
        .errorView "The uploaded file must contain Temperature and Humidity columns."
  | none => .infoView "Please upload an Excel file to generate the psychrometric chart."

/-- Number of data series produced by a script run. -/
def seriesCount : MainView → ℕ
  | .chartView fig => fig.series.length
  | .errorView _ => 0
  | .infoView _ => 0

/-- Unfolding lemma: `calc_humidity_ratio` is the three-step formula. -/
theorem calc_humidity_ratio_def (satP : ℚ → ℚ) (T RH P : ℚ) :
    calc_humidity_ratio satP T RH P =
      0.621945 * (RH * satP T) / (P - RH * satP T) := rfl

/-- Shared algebra: the humidity ratio is monotone in the partial vapor
pressure `RH * satP t` while that stays nonnegative and below `P`. -/
theorem calc_humidity_ratio_le_calc_humidity_ratio (satP : ℚ → ℚ)
    (a b RH P : ℚ) (h0 : 0 ≤ RH * satP a) (h12 : RH * satP a ≤ RH * satP b)
    (h2 : RH * satP b < P) :
    calc_humidity_ratio satP a RH P ≤ calc_humidity_ratio satP b RH P := by
  rw [calc_humidity_ratio_def, calc_humidity_ratio_def]
  have d1 : 0 < P - RH * satP a := by linarith
  have d2 : 0 < P - RH * satP b := by linarith
  rw [div_le_div_iff₀ d1 d2]
  nlinarith

/-- Claim C1: for `tempC`, `relHumidity ∈ [0,1]` and `pressurePa > 0`
exceeding the partial vapor pressure, `calc_humidity_ratio` returns
exactly `0.621945 * (RH * GetSatVapPres T) / (P - RH * GetSatVapPres T)`. -/
theorem C1_humidity_ratio_formula (satP : ℚ → ℚ) (T RH P : ℚ)
    (hRH0 : 0 ≤ RH) (hRH1 : RH ≤ 1) (hP : 0 < P)
    (hPw : RH * satP T < P) :
    calc_humidity_ratio satP T RH P =
      0.621945 * (RH * satP T) / (P - RH * satP T) := rfl

/-- Witness for C1 at `T = 20`, `RH = 1/2`, `P = 101325` with the
constant collaborator `satP = fun _ => 2339`. -/
theorem C1_humidity_ratio_formula_witness :
    (0 : ℚ) ≤ 1/2 ∧ (1/2 : ℚ) * 2339 < 101325 ∧
    calc_humidity_ratio (fun _ => 2339) 20 (1/2) 101325 =
      0.621945 * ((1/2) * 2339) / (101325 - (1/2) * 2339) :=
  ⟨by norm_num, by norm_num,
   C1_humidity_ratio_formula (fun _ => 2339) 20 (1/2) 101325
     (by norm_num) (by norm_num) (by norm_num) (by norm_num)⟩

/-- Claim C7: zero relative humidity yields exactly zero humidity ratio,
for every temperature and every positive pressure. -/
theorem C7_zero_rh_zero_ratio (satP : ℚ → ℚ) (T P : ℚ) (hP : 0 < P) :
    calc_humidity_ratio satP T 0 P = 0 := by
  simp [calc_humidity_ratio]

/-- Witness for C7 at `T = 5`, `P = 1`. -/
theorem C7_zero_rh_zero_ratio_witness :
    (0 : ℚ) < 1 ∧ calc_humidity_ratio (fun _ => 2339) 5 0 1 = 0 :=
  ⟨by norm_num, C7_zero_rh_zero_ratio (fun _ => 2339) 5 1 (by norm_num)⟩

/-- Claim C6: at fixed temperature and pressure the humidity ratio is
strictly monotone in the relative humidity, for RH levels `0 ≤ L1 < L2`
whenever the saturation pressure is positive and the pressure exceeds
the partial vapor pressures involved. -/
theorem C6_mono_in_RH (satP : ℚ → ℚ) (T L1 L2 P : ℚ)
    (hs : 0 < satP T) (h0 : 0 ≤ L1) (h12 : L1 < L2)
    (hP : L2 * satP T < P) :
    calc_humidity_ratio satP T L1 P < calc_humidity_ratio satP T L2 P := by
  rw [calc_humidity_ratio_def, calc_humidity_ratio_def]
  have h1 : L1 * satP T ≤ L2 * satP T := by nlinarith
  have d1 : 0 < P - L1 * satP T := by linarith
  have d2 : 0 < P - L2 * satP T := by linarith
  have hL2 : 0 < L2 := lt_of_le_of_lt h0 h12
  have hPpos : 0 < P := lt_trans (mul_pos hL2 hs) hP
  rw [div_lt_div_iff₀ d1 d2]
  nlinarith [mul_pos hs hPpos]

/-- Witness for C6 at `T = 20`, `L1 = 0.2`, `L2 = 0.4`, `P = 101325`
with the constant collaborator `satP = fun _ => 2339`. -/
theorem C6_mono_in_RH_witness :
    (0.4 : ℚ) * 2339 < 101325 ∧
    calc_humidity_ratio (fun _ => 2339) 20 0.2 101325 <
      calc_humidity_ratio (fun _ => 2339) 20 0.4 101325 :=
  ⟨by norm_num,
   C6_mono_in_RH (fun _ => 2339) 20 0.2 0.4 101325
     (by norm_num) (by norm_num) (by norm_num) (by norm_num)⟩

/-- Claim C9: no filtering, clamping or error anywhere on the sample
path: the formula is evaluated as-is at every temperature, relative
humidity (also outside `[0,1]`) and pressure, and the room-points trace
carries exactly the raw temperatures and the unmodified computed values,
one per zipped input row. -/
theorem C9_passthrough (satP : ℚ → ℚ) (T RH P : ℚ) (df : Table) :
    calc_humidity_ratio satP T RH P =
      0.621945 * (RH * satP T) / (P - RH * satP T) ∧
    (room_series satP df).xs = df.col "Temperature" ∧
    (room_series satP df).ys =
      ((df.col "Temperature").zip (df.col "Humidity")).map
        (fun p => calc_humidity_ratio satP p.1 (p.2 / 100) 101325 * 1000) := by
  refine ⟨rfl, rfl, ?_⟩
  simp [room_series, List.zip_map_right, List.map_map, Function.comp,
    Prod.map, pressure]

/-- Claim C2: the room-points trace sits at index 5 of the figure, has
one point per input row in row order, x equal to the raw temperature and
y equal to `calc_humidity_ratio (T, H/100, 101325) * 1000`. -/
theorem C2_room_points (satP : ℚ → ℚ) (df : Table) (flag : Bool)
    (hlen : (df.col "Temperature").length = (df.col "Humidity").length) :
    (generate_psychrometric_chart satP df flag).series.get? 5 =
      some (room_series satP df) ∧
    (room_series satP df).xs = df.col "Temperature" ∧
    (room_series satP df).ys =
      ((df.col "Temperature").zip (df.col "Humidity")).map
        (fun p => calc_humidity_ratio satP p.1 (p.2 / 100) 101325 * 1000) ∧
    (room_series satP df).ys.length = (df.col "Temperature").length := by
  refine ⟨?_, rfl, ?_, ?_⟩
  · simp [generate_psychrometric_chart, RH_levels]
  · simp [room_series, List.zip_map_right, List.map_map, Function.comp,
      Prod.map, pressure]
  · simp [room_series, List.length_zip, hlen]

/-- Claim C3: with the flag set, the design-zone trace is the last trace
of the figure, a closed 5-point polygon whose first and last points are
equal, whose x-coordinates come from `{14, 22}`, and whose corner
y-values are the calculator outputs at the four corners, in g/kg. -/
theorem C3_design_zone (satP : ℚ → ℚ) (df : Table) :
    (generate_psychrometric_chart satP df true).series.get? 6 =
      some (design_zone_series satP) ∧
    (generate_psychrometric_chart satP df true).series.length = 7 ∧
    (design_zone_series satP).xs = [14, 22, 22, 14, 14] ∧
    (design_zone_series satP).ys =
      [calc_humidity_ratio satP 14 0.4 101325 * 1000,
       calc_humidity_ratio satP 22 0.4 101325 * 1000,
       calc_humidity_ratio satP 22 0.6 101325 * 1000,
       calc_humidity_ratio satP 14 0.6 101325 * 1000,
       calc_humidity_ratio satP 14 0.4 101325 * 1000] ∧
    (design_zone_series satP).xs.length = 5 ∧
    (design_zone_series satP).ys.length = 5 ∧
    (design_zone_series satP).xs.head? = (design_zone_series satP).xs.getLast? ∧
    (design_zone_series satP).ys.head? = (design_zone_series satP).ys.getLast? ∧
    ∀ x ∈ (design_zone_series satP).xs, x = 14 ∨ x = 22 := by
  refine ⟨?_, ?_, rfl, ?_, rfl, rfl, rfl, rfl, ?_⟩
  · simp [generate_psychrometric_chart, RH_levels]
  · simp [generate_psychrometric_chart, RH_levels]
  · simp [design_zone_series, W_comfort_low, W_comfort_high, T_comfort,
      pressure]
  · intro x hx
    simp only [design_zone_series, List.mem_cons, List.not_mem_nil,
      or_false] at hx
    tauto

/-- Claim C4: turning the flag on appends exactly the design-zone trace
and changes nothing else: the true-flag trace list is the false-flag
trace list plus that one trace, the false-flag figure has no design-zone
trace at all, and the label placements agree. -/
theorem C4_toggle_frame (satP : ℚ → ℚ) (df : Table) :
    (generate_psychrometric_chart satP df true).series =
      (generate_psychrometric_chart satP df false).series
        ++ [design_zone_series satP] ∧
    (generate_psychrometric_chart satP df false).series =
      [saturation_series satP] ++ RH_levels.map (rh_series satP)
        ++ [room_series satP df] ∧
    (generate_psychrometric_chart satP df true).series.length =
      (generate_psychrometric_chart satP df false).series.length + 1 ∧
    (generate_psychrometric_chart satP df true).labels =
      (generate_psychrometric_chart satP df false).labels := by
  refine ⟨?_, ?_, ?_, rfl⟩ <;> simp [generate_psychrometric_chart]

/-- Claim C5: a dataset missing the Temperature column or the Humidity
column short-circuits `main` to the validation error and produces zero
series. -/
theorem C5_missing_columns (satP : ℚ → ℚ) (df : Table) (flag : Bool)
    (h : "Temperature" ∉ df.columns ∨ "Humidity" ∉ df.columns) :
    main satP (some df) flag =
      .errorView "The uploaded file must contain Temperature and Humidity columns." ∧
    seriesCount (main satP (some df) flag) = 0 := by
  have hcond : ¬("Temperature" ∈ df.columns ∧ "Humidity" ∈ df.columns) := by
    tauto
  constructor <;> simp [main, hcond, seriesCount]

/-- Witness for C5: a one-column table with only Temperature. -/
theorem C5_missing_columns_witness :
    ("Humidity" ∉ (["Temperature"] : List String)) ∧
    main (fun _ => 2339) (some ⟨["Temperature"], fun _ => []⟩) false =
      .errorView "The uploaded file must contain Temperature and Humidity columns." :=
  ⟨by decide,
   (C5_missing_columns (fun _ => 2339) ⟨["Temperature"], fun _ => []⟩ false
     (Or.inr (by decide))).1⟩

/-- Claim C10: with the same flag, two figures generated from different
datasets agree on everything except the room-points trace (index 5): the
label placements, the trace count, and every trace at an index other
than 5 are identical, while index 5 holds each dataset's own room
trace. -/
theorem C10_reference_content (satP : ℚ → ℚ) (df1 df2 : Table)
    (flag : Bool) :
    (generate_psychrometric_chart satP df1 flag).labels =
      (generate_psychrometric_chart satP df2 flag).labels ∧
    (generate_psychrometric_chart satP df1 flag).series.length =
      (generate_psychrometric_chart satP df2 flag).series.length ∧
    (generate_psychrometric_chart satP df1 flag).series.get? 5 =
      some (room_series satP df1) ∧
    (generate_psychrometric_chart satP df2 flag).series.get? 5 =
      some (room_series satP df2) ∧
    ∀ i, i ≠ 5 →
      (generate_psychrometric_chart satP df1 flag).series.get? i =
        (generate_psychrometric_chart satP df2 flag).series.get? i := by
  refine ⟨rfl, ?_, ?_, ?_, ?_⟩
  · simp [generate_psychrometric_chart, RH_levels]
  · simp [generate_psychrometric_chart, RH_levels]
  · simp [generate_psychrometric_chart, RH_levels]
  · intro i hi
    rcases Nat.lt_or_ge i 6 with h6 | h6
    · interval_cases i
      · rfl
      · rfl
      · rfl
      · rfl
      · rfl
      · exact absurd rfl hi
    · obtain ⟨j, rfl⟩ := Nat.exists_eq_add_of_le' h6
      rfl

/-- Witness for C10: two concrete one-row tables, compared away from the
room-trace index. -/
theorem C10_reference_content_witness :
    (0 ≠ 5) ∧
    (generate_psychrometric_chart (fun _ => 2339)
        ⟨["Temperature", "Humidity"],
         fun c => if c = "Temperature" then [25] else [50]⟩ true).series.get? 0 =
      (generate_psychrometric_chart (fun _ => 2339)
        ⟨["Temperature", "Humidity"],
         fun c => if c = "Temperature" then [10] else [80]⟩ true).series.get? 0 :=
  ⟨by decide,
   (C10_reference_content (fun _ => 2339)
      ⟨["Temperature", "Humidity"], fun c => if c = "Temperature" then [25] else [50]⟩
      ⟨["Temperature", "Humidity"], fun c => if c = "Temperature" then [10] else [80]⟩
      true).2.2.2.2 0 (by decide)⟩

/-- Witness for C2 on the three-row sample set
`(25, 50), (10, 80), (35, 20)`. -/
theorem C2_room_points_witness :
    ((["Temperature", "Humidity"] : List String) = ["Temperature", "Humidity"]) ∧
    ∃ r, (generate_psychrometric_chart (fun _ => 2339)
        ⟨["Temperature", "Humidity"],
         fun c => if c = "Temperature" then [25, 10, 35] else [50, 80, 20]⟩
        false).series.get? 5 = some r :=
  ⟨rfl,
   ⟨room_series (fun _ => 2339)
      ⟨["Temperature", "Humidity"],
       fun c => if c = "Temperature" then [25, 10, 35] else [50, 80, 20]⟩,
    (C2_room_points (fun _ => 2339)
      ⟨["Temperature", "Humidity"],
       fun c => if c = "Temperature" then [25, 10, 35] else [50, 80, 20]⟩
      false (by simp)).1⟩⟩

/-- Shared: `linspace` yields `n` samples. -/
theorem linspace_length (lo hi : ℚ) (n : ℕ) :
    (linspace lo hi n).length = n := by
  rw [linspace, List.length_map, List.length_range]

/-- Shared: the `i`-th sample of `linspace`, for `i < n`. -/
theorem linspace_get? (lo hi : ℚ) (n i : ℕ) (h : i < n) :
    (linspace lo hi n).get? i =
      some (lo + (hi - lo) * (i : ℚ) / ((n : ℚ) - 1)) := by
  rw [linspace, List.get?_eq_getElem?, List.getElem?_map]
  rw [List.getElem?_range h]
  rfl

/-- Shared: consecutive samples of `linspace 0 50 100` differ by exactly
`50 / 99`. -/
theorem T_db_chain_step :
    List.Chain' (fun a b => b = a + 50 / 99) T_db := by
  have hc : List.Chain'
      (fun a b : ℕ =>
        ((0 : ℚ) + ((50 : ℚ) - 0) * (b : ℚ) / (((100 : ℕ) : ℚ) - 1)) =
          ((0 : ℚ) + ((50 : ℚ) - 0) * (a : ℚ) / (((100 : ℕ) : ℚ) - 1))
            + 50 / 99)
      (List.range 100) := by
    rw [show (100 : ℕ) = 99 + 1 from rfl, List.chain'_range_succ]
    intro m _
    push_cast
    ring
  exact (List.chain'_map _).mpr hc

/-- Shared: the temperature grid is sorted in the pairwise sense. -/
theorem T_db_chain_le : List.Chain' (· ≤ ·) T_db :=
  T_db_chain_step.imp (fun a b h => by rw [h]; linarith)

/-- Claim C8: the saturation-line trace has exactly 100 points, its
x-values are the 100 evenly spaced samples of `[0, 50]` (step `50/99`,
endpoints 0 and 50), its y-values come from the calculator at RH = 1.0
scaled to g/kg, and — for a saturation-pressure collaborator that is
monotone, nonnegative and below the total pressure — those y-values are
monotonically non-decreasing along the trace; the trace is the first
series of every generated figure. -/
theorem C8_saturation_line (satP : ℚ → ℚ) (hmono : Monotone satP)
    (h0 : ∀ t, 0 ≤ satP t) (hlt : ∀ t, satP t < pressure) :
    (saturation_series satP).xs.length = 100 ∧
    (saturation_series satP).xs = linspace 0 50 100 ∧
    List.Chain' (fun a b => b = a + 50 / 99) (saturation_series satP).xs ∧
    (saturation_series satP).xs.get? 0 = some 0 ∧
    (saturation_series satP).xs.get? 99 = some 50 ∧
    (saturation_series satP).ys =
      (saturation_series satP).xs.map
        (fun t => calc_humidity_ratio satP t 1.0 pressure * 1000) ∧
    List.Chain' (· ≤ ·) (saturation_series satP).ys ∧
    ∀ (df : Table) (flag : Bool),
      (generate_psychrometric_chart satP df flag).series.get? 0 =
        some (saturation_series satP) := by
  have hone : (1.0 : ℚ) = 1 := by norm_num
  refine ⟨?_, rfl, T_db_chain_step, ?_, ?_, rfl, ?_, fun df flag => rfl⟩
  · exact linspace_length 0 50 100
  · rw [show (saturation_series satP).xs = linspace 0 50 100 from rfl,
      linspace_get? 0 50 100 0 (by norm_num)]
    norm_num
  · rw [show (saturation_series satP).xs = linspace 0 50 100 from rfl,
      linspace_get? 0 50 100 99 (by norm_num)]
    norm_num
  · show List.Chain' (· ≤ ·)
      (T_db.map (fun t => calc_humidity_ratio satP t 1.0 pressure * 1000))
    rw [List.chain'_map]
    refine T_db_chain_le.imp (fun a b hab => ?_)
    have hcalc :
        calc_humidity_ratio satP a 1.0 pressure ≤
          calc_humidity_ratio satP b 1.0 pressure := by
      refine calc_humidity_ratio_le_calc_humidity_ratio satP a b 1.0 pressure
        ?_ ?_ ?_
      · rw [hone, one_mul]; exact h0 a
      · rw [hone, one_mul, one_mul]; exact hmono hab
      · rw [hone, one_mul]; exact hlt b
    exact mul_le_mul_of_nonneg_right hcalc (by norm_num)

/-- Witness for C8 with the constant collaborator `satP = fun _ => 2339`. -/
theorem C8_saturation_line_witness :
    Monotone (fun _ : ℚ => (2339 : ℚ)) ∧
    List.Chain' (· ≤ ·) (saturation_series (fun _ => 2339)).ys :=
  ⟨monotone_const,
   (C8_saturation_line (fun _ => 2339) monotone_const
      (fun _ => by norm_num)
      (fun _ => by rw [pressure]; norm_num)).2.2.2.2.2.2.1⟩

end Psychrometric
